import Mathlib

/-!
Verification development for the KiCad fragment consisting of
`src/common/rc_item.h`, `src/include/reporter.h` and
`src/pcbnew/basepcbframe.cpp`: the violation-list-to-tree projection model
(`RC_TREE_MODEL` over an `RC_ITEMS_PROVIDER`), the `REPORTER` adapter base
class, and the display-mode clamping in `PCB_BASE_FRAME::LoadSettings`.

Machine pointers (node addresses, `wxDataViewItem` handles, `MARKER_BASE*`
back-references) are modelled as natural numbers; `KIID` uuids are modelled
as natural numbers with `0` the nil sentinel.
-/

namespace KicadRC

/-- `KIID` uuids are modelled as natural numbers. -/
abbrev KIID := Nat

/-- The nil uuid sentinel (`niluuid` in the source). -/
def niluuid : KIID := 0

/-- An `EDA_ITEM` as far as `RC_ITEM::SetItems` uses it: the entity carries
its uuid `m_Uuid` (src/common/rc_item.h:111-114 reads `aItem->m_Uuid`). -/
structure EDA_ITEM where
  m_Uuid : KIID
deriving DecidableEq

/-- `RC_ITEM` (src/common/rc_item.h:77-158): error code, message, owning
marker back-reference (a pointer, modelled as an optional address), and the
main/aux entity uuids. -/
structure RC_ITEM where
  m_errorCode : Int
  m_errorMessage : String
  m_parent : Option Nat
  m_mainItemUuid : KIID
  m_auxItemUuid : KIID
deriving DecidableEq

/-- The default constructor `RC_ITEM()` (src/common/rc_item.h:88-94): error
code 0, null parent, both uuids `niluuid`; the message is a
default-constructed (empty) string. -/
def RC_ITEM.ctor : RC_ITEM :=
  { m_errorCode := 0
    m_errorMessage := ""
    m_parent := none
    m_mainItemUuid := niluuid
    m_auxItemUuid := niluuid }

/-- The copy constructor `RC_ITEM(RC_ITEM*)` (src/common/rc_item.h:96-103):
copies all five fields. -/
def RC_ITEM.copy (aItem : RC_ITEM) : RC_ITEM :=
  { m_errorCode := aItem.m_errorCode
    m_errorMessage := aItem.m_errorMessage
    m_parent := aItem.m_parent
    m_mainItemUuid := aItem.m_mainItemUuid
    m_auxItemUuid := aItem.m_auxItemUuid }

/-- `RC_ITEM::SetItems(EDA_ITEM*, EDA_ITEM*)` (src/common/rc_item.h:109-115):
stores the main item's uuid; stores the aux item's uuid only when the second
pointer is non-null (otherwise the old aux uuid is kept). -/
def RC_ITEM.SetItemsPtr (r : RC_ITEM) (aItem : EDA_ITEM) (bItem : Option EDA_ITEM) :
    RC_ITEM :=
  let r1 := { r with m_mainItemUuid := aItem.m_Uuid }
  match bItem with
  | some b => { r1 with m_auxItemUuid := b.m_Uuid }
  | none => r1

/-- `RC_ITEM::SetItems(const KIID&, const KIID&)` (src/common/rc_item.h:117-121):
stores both uuids verbatim (the C++ default for the second argument is
`niluuid`). -/
def RC_ITEM.SetItems (r : RC_ITEM) (aItem bItem : KIID) : RC_ITEM :=
  { r with m_mainItemUuid := aItem, m_auxItemUuid := bItem }

/-- `RC_ITEM::GetMainItemID` (src/common/rc_item.h:123). -/
def RC_ITEM.GetMainItemID (r : RC_ITEM) : KIID := r.m_mainItemUuid

/-- `RC_ITEM::GetAuxItemID` (src/common/rc_item.h:124). -/
def RC_ITEM.GetAuxItemID (r : RC_ITEM) : KIID := r.m_auxItemUuid

/-- The `RC_ITEM` states reachable through the public construction interface:
the default constructor, the copy constructor, and the two `SetItems`
overloads. -/
inductive RC_ITEM.Reachable : RC_ITEM → Prop where
  | ctor : RC_ITEM.Reachable RC_ITEM.ctor
  | copy (r : RC_ITEM) : RC_ITEM.Reachable r → RC_ITEM.Reachable (RC_ITEM.copy r)
  | setItemsPtr (r : RC_ITEM) (a : EDA_ITEM) (b : Option EDA_ITEM) :
      RC_ITEM.Reachable r → RC_ITEM.Reachable (r.SetItemsPtr a b)
  | setItems (r : RC_ITEM) (a b : KIID) :
      RC_ITEM.Reachable r → RC_ITEM.Reachable (r.SetItems a b)

/-!
## The items provider

`RC_ITEMS_PROVIDER` (src/common/rc_item.h:42-69) is an abstract interface;
no concrete implementation is among the supplied sources.  Modelled from the
spec: a provider owns an ordered list of items; each item's severity is
derived externally from its error code (an opaque code-to-severity-bit map);
the provider holds the active severity bitmask, and its `GetCount`/`GetItem`
reflect only the filtered subset.  `m_deleteLog` records every `DeleteItem`
call (index and deep flag, most recent first) so that "calls DeleteItem
exactly once" is expressible; it affects nothing else.
-/

/-- Modelled from the spec: concrete state of a `RC_ITEMS_PROVIDER`
(the interface at src/common/rc_item.h:42-69 has no implementation in the
supplied sources). -/
structure RC_ITEMS_PROVIDER where
  m_items : List RC_ITEM
  m_severityOf : Int → Nat
  m_severities : Nat
  m_deleteLog : List (Nat × Bool)

/-- An item matches a severity bitmask when its (externally derived)
severity bit intersects the mask. -/
def RC_ITEMS_PROVIDER.matchesMask (p : RC_ITEMS_PROVIDER) (aMask : Nat)
    (it : RC_ITEM) : Bool :=
  decide (Nat.land (p.m_severityOf it.m_errorCode) aMask ≠ 0)

/-- The filtered subset of the provider's items under its current severity
mask, in the underlying list's index order. -/
def RC_ITEMS_PROVIDER.filteredItems (p : RC_ITEMS_PROVIDER) : List RC_ITEM :=
  p.m_items.filter (p.matchesMask p.m_severities)

/-- Modelled from the spec: `RC_ITEMS_PROVIDER::SetSeverities`
(src/common/rc_item.h:45) stores the active severity bitmask. -/
def RC_ITEMS_PROVIDER.SetSeverities (p : RC_ITEMS_PROVIDER) (aSeverities : Nat) :
    RC_ITEMS_PROVIDER :=
  { p with m_severities := aSeverities }

/-- Modelled from the spec: `RC_ITEMS_PROVIDER::GetCount(int aSeverity = -1)`
(src/common/rc_item.h:47): with the default argument (modelled as `none`)
the count of items matching the stored mask; with an explicit severity mask
the count of items matching that mask. -/
def RC_ITEMS_PROVIDER.GetCount (p : RC_ITEMS_PROVIDER) (aSeverity : Option Nat) :
    Nat :=
  match aSeverity with
  | none => p.filteredItems.length
  | some s => (p.m_items.filter (p.matchesMask s)).length

/-- Modelled from the spec: `RC_ITEMS_PROVIDER::GetItem`
(src/common/rc_item.h:53) retrieves an item by index in the filtered view. -/
def RC_ITEMS_PROVIDER.GetItem (p : RC_ITEMS_PROVIDER) (aIndex : Nat) :
    Option RC_ITEM :=
  p.filteredItems[aIndex]?

/-- Remove from `l` the element that is the `n`-th one satisfying `pred`
(all other elements are kept, in order). -/
def removeNthMatching (pred : RC_ITEM → Bool) : List RC_ITEM → Nat → List RC_ITEM
  | [], _ => []
  | x :: xs, n =>
    if pred x then
      match n with
      | 0 => xs
      | n + 1 => x :: removeNthMatching pred xs n
    else
      x :: removeNthMatching pred xs n

/-- Modelled from the spec: `RC_ITEMS_PROVIDER::DeleteItem(int, bool)`
(src/common/rc_item.h:60) removes the indexed item of the filtered view from
the underlying list; the deep flag concerns the source entity (outside this
model).  The call is recorded in the log. -/
def RC_ITEMS_PROVIDER.DeleteItem (p : RC_ITEMS_PROVIDER) (aIndex : Nat)
    (aDeep : Bool) : RC_ITEMS_PROVIDER :=
  { p with
    m_items := removeNthMatching (p.matchesMask p.m_severities) p.m_items aIndex
    m_deleteLog := (aIndex, aDeep) :: p.m_deleteLog }

/-- Modelled from the spec: `RC_ITEMS_PROVIDER::DeleteAllItems`
(src/common/rc_item.h:66) removes and deletes all items in the list. -/
def RC_ITEMS_PROVIDER.DeleteAllItems (p : RC_ITEMS_PROVIDER) : RC_ITEMS_PROVIDER :=
  { p with m_items := [] }

/-!
## The tree nodes and the tree model
-/

/-- `RC_TREE_NODE::NODE_TYPE` (src/common/rc_item.h:164). -/
inductive NODE_TYPE where
  | MARKER
  | MAIN_ITEM
  | AUX_ITEM
deriving DecidableEq

/-- `RC_TREE_NODE` (src/common/rc_item.h:161-183): node kind, the referenced
`RC_ITEM`, and the ordered list of exclusively owned children.  The
non-owning `m_Parent` back-reference is omitted from the functional model
(it is derivable from the tree). -/
inductive RC_TREE_NODE where
  | mk (m_Type : NODE_TYPE) (m_RcItem : RC_ITEM) (m_Children : List RC_TREE_NODE)

/-- Field accessor for `RC_TREE_NODE::m_Type`. -/
def RC_TREE_NODE.m_Type : RC_TREE_NODE → NODE_TYPE
  | .mk t _ _ => t

/-- Field accessor for `RC_TREE_NODE::m_RcItem`. -/
def RC_TREE_NODE.m_RcItem : RC_TREE_NODE → RC_ITEM
  | .mk _ r _ => r

/-- Field accessor for `RC_TREE_NODE::m_Children`. -/
def RC_TREE_NODE.m_Children : RC_TREE_NODE → List RC_TREE_NODE
  | .mk _ _ cs => cs

/-- `RC_TREE_MODEL` state (src/common/rc_item.h:186-268): the active severity
mask, the attached provider, and the owned vector of top-level group nodes.
The GUI collaborators (`m_editFrame`, `m_view`) are outside the model. -/
structure RC_TREE_MODEL where
  m_severities : Nat
  m_rcItemsProvider : RC_ITEMS_PROVIDER
  m_tree : List RC_TREE_NODE

/-- Modelled from the spec (rebuild algorithm, one item): one group
(`MARKER`) node per violation; a `MAIN_ITEM` leaf when the main uuid is
non-nil; an `AUX_ITEM` leaf after it when the aux uuid is non-nil. -/
def groupNodeFor (item : RC_ITEM) : RC_TREE_NODE :=
  RC_TREE_NODE.mk NODE_TYPE.MARKER item
    ((if item.GetMainItemID ≠ niluuid then
        [RC_TREE_NODE.mk NODE_TYPE.MAIN_ITEM item []] else []) ++
     (if item.GetAuxItemID ≠ niluuid then
        [RC_TREE_NODE.mk NODE_TYPE.AUX_ITEM item []] else []))

/-- Modelled from the spec: `RC_TREE_MODEL::rebuildModel`
(declared at src/common/rc_item.h:258; its body is not among the supplied
sources).  Stores the provider and the mask, propagates the mask to the
provider, discards the previous tree and builds one group node per filtered
item in provider index order. -/
def RC_TREE_MODEL.rebuildModel (_m : RC_TREE_MODEL)
    (aProvider : RC_ITEMS_PROVIDER) (aSeverities : Nat) : RC_TREE_MODEL :=
  let p := aProvider.SetSeverities aSeverities
  { m_severities := aSeverities
    m_rcItemsProvider := p
    m_tree := p.filteredItems.map groupNodeFor }

/-- Modelled from the spec: `RC_TREE_MODEL::SetProvider`
(src/common/rc_item.h:207) replaces the data source and rebuilds under the
current severity filter. -/
def RC_TREE_MODEL.SetProvider (m : RC_TREE_MODEL) (aProvider : RC_ITEMS_PROVIDER) :
    RC_TREE_MODEL :=
  m.rebuildModel aProvider m.m_severities

/-- Modelled from the spec: `RC_TREE_MODEL::SetSeverities`
(src/common/rc_item.h:208) stores the mask and rebuilds. -/
def RC_TREE_MODEL.SetSeverities (m : RC_TREE_MODEL) (aSeverities : Nat) :
    RC_TREE_MODEL :=
  m.rebuildModel m.m_rcItemsProvider aSeverities

/-- `RC_TREE_MODEL::GetDRCItemCount` (src/common/rc_item.h:210): the size of
`m_tree`. -/
def RC_TREE_MODEL.GetDRCItemCount (m : RC_TREE_MODEL) : Nat :=
  m.m_tree.length

/-- Modelled from the spec: `RC_TREE_MODEL::GetChildren`
(declared at src/common/rc_item.h:218-219; body not among the supplied
sources).  For the sentinel root (`none`) it yields the top-level group
nodes; for a node it yields that node's children. -/
def RC_TREE_MODEL.GetChildren (m : RC_TREE_MODEL) (aItem : Option RC_TREE_NODE) :
    List RC_TREE_NODE :=
  match aItem with
  | none => m.m_tree
  | some n => n.m_Children

/-- Modelled from the spec: `RC_TREE_MODEL::ValueChanged`
(declared at src/common/rc_item.h:252; body not among the supplied sources):
a pass-through change notification to the view layer; no internal rebuild
and no tree mutation. -/
def RC_TREE_MODEL.ValueChanged (m : RC_TREE_MODEL) (_aNode : RC_TREE_NODE) :
    RC_TREE_MODEL :=
  m

/-- The index of the first occurrence of `item` in a list, mirroring the
provider-index search loop of `DeleteCurrentItem` (`GetItem(i) == drc_item`,
pointer identity modelled as value equality). -/
def findItemIndex (item : RC_ITEM) : List RC_ITEM → Option Nat
  | [] => none
  | x :: xs =>
    if x = item then some 0
    else (findItemIndex item xs).map (· + 1)

/-- Modelled from the spec: `RC_TREE_MODEL::DeleteCurrentItem`
(declared at src/common/rc_item.h:254; body not among the supplied sources).
The selection is tracked by the external view and passed in (`none` models
no selection: the operation returns without effect).  The selected node's
item is searched in the provider's filtered view; when an index matches, the
provider's `DeleteItem` is called once at that index and the corresponding
group node is removed from the tree; when no index matches (stale handle)
the operation is a no-op. -/
def RC_TREE_MODEL.DeleteCurrentItem (m : RC_TREE_MODEL)
    (selected : Option RC_TREE_NODE) (aDeep : Bool) : RC_TREE_MODEL :=
  match selected with
  | none => m
  | some node =>
    match findItemIndex node.m_RcItem m.m_rcItemsProvider.filteredItems with
    | none => m
    | some i =>
      { m with
        m_rcItemsProvider := m.m_rcItemsProvider.DeleteItem i aDeep
        m_tree := m.m_tree.eraseIdx i }

/-- Modelled from the spec: `RC_TREE_MODEL::DeleteAllItems`
(declared at src/common/rc_item.h:255; body not among the supplied sources):
asks the provider to delete every item, then clears the tree. -/
def RC_TREE_MODEL.DeleteAllItems (m : RC_TREE_MODEL) : RC_TREE_MODEL :=
  { m with
    m_rcItemsProvider := m.m_rcItemsProvider.DeleteAllItems
    m_tree := [] }

/-!
## Tree shape predicates
-/

/-- The expected child-type sequence of a group node for `item`: a
`MAIN_ITEM` leaf when the main uuid is non-nil, then an `AUX_ITEM` leaf when
the aux uuid is non-nil. -/
def mainAuxTypes (item : RC_ITEM) : List NODE_TYPE :=
  (if item.GetMainItemID ≠ niluuid then [NODE_TYPE.MAIN_ITEM] else []) ++
  (if item.GetAuxItemID ≠ niluuid then [NODE_TYPE.AUX_ITEM] else [])

/-- Shape invariant of one top-level node: it is a `MARKER` (group) node,
all of its children are childless (so the tree never exceeds two levels),
and the child kinds read (in order) as one of `[]`, `[MAIN_ITEM]`,
`[AUX_ITEM]` or `[MAIN_ITEM, AUX_ITEM]` — main-entity leaf first — with an
`AUX_ITEM` leaf present only when the item's aux uuid is non-nil. -/
def nodeInv (g : RC_TREE_NODE) : Bool :=
  decide (g.m_Type = NODE_TYPE.MARKER) &&
  g.m_Children.all (fun c => c.m_Children.isEmpty) &&
  (match g.m_Children.map RC_TREE_NODE.m_Type with
   | [] => true
   | [NODE_TYPE.MAIN_ITEM] => true
   | [NODE_TYPE.AUX_ITEM] => decide (g.m_RcItem.GetAuxItemID ≠ niluuid)
   | [NODE_TYPE.MAIN_ITEM, NODE_TYPE.AUX_ITEM] =>
       decide (g.m_RcItem.GetAuxItemID ≠ niluuid)
   | _ => false)

/-- The tree-shape invariant over the list of top-level nodes. -/
def treeWF (tree : List RC_TREE_NODE) : Bool :=
  tree.all nodeInv

/-!
## Opaque tree-view handles and the unsupported edit operation
-/

/-- `wxDataViewItem`: the toolkit's opaque item handle, wrapping a `void*`
id.  Machine addresses are modelled as natural numbers. -/
structure wxDataViewItem where
  m_id : Nat
deriving DecidableEq

/-- `wxDataViewItem::GetID`. -/
def wxDataViewItem.GetID (aItem : wxDataViewItem) : Nat :=
  aItem.m_id

/-- `RC_TREE_MODEL::ToItem` (src/common/rc_item.h:189-192): wraps a node
pointer (modelled as its address) into a `wxDataViewItem`; the two C++ casts
are the identity on the address. -/
def RC_TREE_MODEL.ToItem (aNode : Nat) : wxDataViewItem :=
  { m_id := aNode }

/-- `RC_TREE_MODEL::ToNode` (src/common/rc_item.h:194-197): reads the handle
id back as a node pointer; the C++ cast is the identity on the address. -/
def RC_TREE_MODEL.ToNode (aItem : wxDataViewItem) : Nat :=
  aItem.GetID

/-- `RC_TREE_MODEL::SetValue` (src/common/rc_item.h:236-242): editing is not
supported; the body is exactly `return false` and touches nothing, so the
model returns `false` paired with the unchanged model state.  The
`wxVariant` argument is modelled as a string (the model is a single
string-column model, src/common/rc_item.h:223). -/
def RC_TREE_MODEL.SetValue (m : RC_TREE_MODEL) (_aVariant : String)
    (_aItem : wxDataViewItem) (_aCol : Nat) : Bool × RC_TREE_MODEL :=
  (false, m)

/-!
## The REPORTER base class
-/

/-- The reporter severity flags (named in src/include/reporter.h:82-83; the
enumeration itself is declared outside the supplied sources). -/
inductive SEVERITY where
  | RPT_SEVERITY_UNDEFINED
  | RPT_SEVERITY_INFO
  | RPT_SEVERITY_ACTION
  | RPT_SEVERITY_WARNING
  | RPT_SEVERITY_ERROR
deriving DecidableEq

/-- The `REPORTER` base class (src/include/reporter.h:62-122).  `Report` is
pure virtual: a subclass supplies it, so it is modelled as a function field;
its outcome (the reference returned plus whatever effect the subclass
performs) is an abstract result type `ρ`. -/
structure REPORTER (ρ : Type) where
  Report : String → SEVERITY → ρ

/-- The base-class default `REPORTER::ReportTail`
(src/include/reporter.h:92-95): body `return Report( aText, aSeverity );`. -/
def REPORTER.ReportTail {ρ : Type} (r : REPORTER ρ) (aText : String)
    (aSeverity : SEVERITY) : ρ :=
  r.Report aText aSeverity

/-- The base-class default `REPORTER::ReportHead`
(src/include/reporter.h:101-104): body `return Report( aText, aSeverity );`. -/
def REPORTER.ReportHead {ρ : Type} (r : REPORTER ρ) (aText : String)
    (aSeverity : SEVERITY) : ρ :=
  r.Report aText aSeverity

/-!
## Display-mode clamping in PCB_BASE_FRAME::LoadSettings
-/

/-- Modelled from the spec: the display-mode enumeration used by
`PCB_BASE_FRAME::LoadSettings` is declared outside the supplied sources; its
declaration order (`LINE`, `FILLED`, `SKETCH`, consecutive from 0) gives the
three constants. -/
def LINE : Int := 0

/-- See `LINE`. -/
def FILLED : Int := 1

/-- See `LINE`. -/
def SKETCH : Int := 2

/-- The two display-mode fields of `PCB_BASE_FRAME` that LoadSettings
range-checks. -/
structure PCB_DISPLAY_MODES where
  m_DisplayModEdge : Int
  m_DisplayModText : Int
deriving DecidableEq

/-- The display-mode part of `PCB_BASE_FRAME::LoadSettings`
(src/pcbnew/basepcbframe.cpp:778-791): the two values read from the
configuration store are passed in; each is replaced by `FILLED` when it
falls outside `[LINE, SKETCH]`. -/
def LoadSettings_displayModes (cfgModEdge cfgModText : Int) : PCB_DISPLAY_MODES :=
  let edge := if cfgModEdge < LINE ∨ cfgModEdge > SKETCH then FILLED else cfgModEdge
  let text := if cfgModText < LINE ∨ cfgModText > SKETCH then FILLED else cfgModText
  { m_DisplayModEdge := edge, m_DisplayModText := text }

/-!
## Concrete sample data (used by witness theorems)
-/

/-- A sample violation with both entities present (error code 1). -/
def sampleItem0 : RC_ITEM :=
  { m_errorCode := 1
    m_errorMessage := "short circuit"
    m_parent := none
    m_mainItemUuid := 10
    m_auxItemUuid := 20 }

/-- A sample violation with only a main entity (error code 2). -/
def sampleItem1 : RC_ITEM :=
  { m_errorCode := 2
    m_errorMessage := "unconnected"
    m_parent := none
    m_mainItemUuid := 30
    m_auxItemUuid := niluuid }

/-- A sample code-to-severity map: code 1 is severity bit 1 (error), every
other code is severity bit 2 (warning). -/
def sampleSeverityOf : Int → Nat :=
  fun c => if c = 1 then 1 else 2

/-- A sample provider holding both sample items, with severity filter 1. -/
def sampleProvider : RC_ITEMS_PROVIDER :=
  { m_items := [sampleItem0, sampleItem1]
    m_severityOf := sampleSeverityOf
    m_severities := 1
    m_deleteLog := [] }

/-- A sample tree model: the sample provider attached and rebuilt under
severity mask 1 (only `sampleItem0` passes the filter). -/
def sampleModel : RC_TREE_MODEL :=
  RC_TREE_MODEL.SetSeverities
    { m_severities := 1, m_rcItemsProvider := sampleProvider, m_tree := [] } 1

/-- The aux-entity leaf of `sampleItem0`'s group node. -/
def sampleAuxLeaf : RC_TREE_NODE :=
  RC_TREE_NODE.mk NODE_TYPE.AUX_ITEM sampleItem0 []

/-- The group node of `sampleItem0`, as the view would select it. -/
def sampleNode : RC_TREE_NODE :=
  groupNodeFor sampleItem0

/-- A stale node: its item does not occur in the sample provider. -/
def staleNode : RC_TREE_NODE :=
  groupNodeFor { sampleItem0 with m_mainItemUuid := 99 }

/-- A second error-severity violation (error code 1, main entity only). -/
def sampleItem2 : RC_ITEM :=
  { m_errorCode := 1
    m_errorMessage := "clearance"
    m_parent := none
    m_mainItemUuid := 40
    m_auxItemUuid := niluuid }

/-- A provider with severities [error, warning, error] at indices [0, 1, 2],
filter set to the error bit: the filtered view is [sampleItem0, sampleItem2]. -/
def sampleProvider3 : RC_ITEMS_PROVIDER :=
  { m_items := [sampleItem0, sampleItem1, sampleItem2]
    m_severityOf := sampleSeverityOf
    m_severities := 1
    m_deleteLog := [] }

/-- A bare model state to rebuild from. -/
def sampleBase : RC_TREE_MODEL :=
  { m_severities := 1, m_rcItemsProvider := sampleProvider, m_tree := [] }

/-!
## Helper lemmas
-/

theorem groupNodeFor_rcItem (item : RC_ITEM) :
    (groupNodeFor item).m_RcItem = item := by
  unfold groupNodeFor
  rfl

theorem groupNodeFor_type (item : RC_ITEM) :
    (groupNodeFor item).m_Type = NODE_TYPE.MARKER := by
  unfold groupNodeFor
  rfl

theorem groupNodeFor_children_types (item : RC_ITEM) :
    (groupNodeFor item).m_Children.map RC_TREE_NODE.m_Type = mainAuxTypes item := by
  unfold groupNodeFor mainAuxTypes
  by_cases h1 : item.GetMainItemID ≠ niluuid <;>
    by_cases h2 : item.GetAuxItemID ≠ niluuid <;>
      simp [h1, h2, RC_TREE_NODE.m_Children, RC_TREE_NODE.m_Type]

theorem groupNodeFor_children_childless (item : RC_ITEM) :
    ∀ c ∈ (groupNodeFor item).m_Children, c.m_Children = [] := by
  intro c hc
  unfold groupNodeFor at hc
  simp only [RC_TREE_NODE.m_Children, List.mem_append] at hc
  rcases hc with hc | hc <;>
    · split at hc <;> simp_all [RC_TREE_NODE.m_Children]

theorem nodeInv_groupNodeFor (item : RC_ITEM) :
    nodeInv (groupNodeFor item) = true := by
  unfold nodeInv groupNodeFor
  by_cases h1 : item.GetMainItemID ≠ niluuid <;>
    by_cases h2 : item.GetAuxItemID ≠ niluuid <;>
      simp [h1, h2, RC_TREE_NODE.m_Children, RC_TREE_NODE.m_Type,
            RC_TREE_NODE.m_RcItem]

theorem all_eraseIdx {α : Type} (p : α → Bool) :
    ∀ (l : List α) (n : Nat), l.all p = true → (l.eraseIdx n).all p = true := by
  intro l
  induction l with
  | nil => intro n _; simp [List.eraseIdx]
  | cons x xs ih =>
    intro n h
    simp only [List.all_cons, Bool.and_eq_true] at h
    cases n with
    | zero => simpa [List.eraseIdx] using h.2
    | succ n =>
      simp only [List.eraseIdx, List.all_cons, Bool.and_eq_true]
      exact ⟨h.1, ih n h.2⟩

theorem filter_removeNthMatching (pred : RC_ITEM → Bool) :
    ∀ (l : List RC_ITEM) (n : Nat),
      (removeNthMatching pred l n).filter pred = (l.filter pred).eraseIdx n := by
  intro l
  induction l with
  | nil => intro n; simp [removeNthMatching, List.eraseIdx]
  | cons x xs ih =>
    intro n
    by_cases hp : pred x
    · cases n with
      | zero => simp [removeNthMatching, hp, List.filter_cons, List.eraseIdx]
      | succ n =>
        simp [removeNthMatching, hp, List.filter_cons, List.eraseIdx, ih n]
    · simp [removeNthMatching, hp, List.filter_cons, ih n]

theorem filter_decomp_removeNth (pred : RC_ITEM → Bool) :
    ∀ (l : List RC_ITEM) (n : Nat) (a : RC_ITEM),
      (l.filter pred)[n]? = some a →
      ∃ pre post, l = pre ++ a :: post ∧
        removeNthMatching pred l n = pre ++ post := by
  intro l
  induction l with
  | nil => intro n a h; simp at h
  | cons x xs ih =>
    intro n a h
    by_cases hp : pred x
    · rw [List.filter_cons_of_pos hp] at h
      cases n with
      | zero =>
        simp only [List.getElem?_cons_zero, Option.some.injEq] at h
        subst h
        exact ⟨[], xs, by simp, by simp [removeNthMatching, hp]⟩
      | succ n =>
        rw [List.getElem?_cons_succ] at h
        obtain ⟨pre, post, hl, hr⟩ := ih n a h
        exact ⟨x :: pre, post, by simp [hl],
               by simp [removeNthMatching, hp, hr]⟩
    · rw [List.filter_cons_of_neg hp] at h
      obtain ⟨pre, post, hl, hr⟩ := ih n a h
      exact ⟨x :: pre, post, by simp [hl],
             by simp [removeNthMatching, hp, hr]⟩

theorem findItemIndex_getElem (item : RC_ITEM) :
    ∀ (l : List RC_ITEM) (i : Nat),
      findItemIndex item l = some i → l[i]? = some item := by
  intro l
  induction l with
  | nil => intro i h; simp [findItemIndex] at h
  | cons x xs ih =>
    intro i h
    by_cases hx : x = item
    · simp only [findItemIndex, if_pos hx] at h
      obtain rfl : (0 : Nat) = i := Option.some.injEq _ _ ▸ h
      simpa using hx
    · simp only [findItemIndex, if_neg hx, Option.map_eq_some'] at h
      obtain ⟨j, hj, rfl⟩ := h
      rw [List.getElem?_cons_succ]
      exact ih j hj

/-!
## Claim theorems
-/

/-- C1: for every severity bitmask `M` and every attached provider, after
`SetSeverities M` on the tree model, `GetDRCItemCount` (the number of
top-level group nodes in `m_tree`) equals the provider's `GetCount M`, with
each filtered item wrapped in exactly one group node. -/
theorem claim_C1_severity_filter_count (m : RC_TREE_MODEL) (M : Nat) :
    (m.SetSeverities M).GetDRCItemCount
        = (m.SetSeverities M).m_rcItemsProvider.GetCount (some M) ∧
    (m.SetSeverities M).m_tree.map RC_TREE_NODE.m_RcItem
        = (m.SetSeverities M).m_rcItemsProvider.filteredItems ∧
    ∀ g ∈ (m.SetSeverities M).m_tree, g.m_Type = NODE_TYPE.MARKER := by
  refine ⟨?_, ?_, ?_⟩
  · simp [RC_TREE_MODEL.SetSeverities, RC_TREE_MODEL.rebuildModel,
      RC_TREE_MODEL.GetDRCItemCount, RC_ITEMS_PROVIDER.GetCount,
      RC_ITEMS_PROVIDER.filteredItems, RC_ITEMS_PROVIDER.SetSeverities,
      RC_ITEMS_PROVIDER.matchesMask]
  · simp only [RC_TREE_MODEL.SetSeverities, RC_TREE_MODEL.rebuildModel,
      List.map_map]
    have hcomp : RC_TREE_NODE.m_RcItem ∘ groupNodeFor = id :=
      funext groupNodeFor_rcItem
    rw [hcomp, List.map_id]
  · intro g hg
    simp only [RC_TREE_MODEL.SetSeverities, RC_TREE_MODEL.rebuildModel,
      List.mem_map] at hg
    obtain ⟨item, -, rfl⟩ := hg
    exact groupNodeFor_type item

/-- Witness for C1 at the concrete sample model with mask 1: the group count
matches the provider's filtered count and the sample group node (a member of
the rebuilt tree) is a `MARKER` node. -/
theorem claim_C1_witness :
    (sampleBase.SetSeverities 1).GetDRCItemCount
        = (sampleBase.SetSeverities 1).m_rcItemsProvider.GetCount (some 1) ∧
    sampleNode.m_Type = NODE_TYPE.MARKER := by
  have h := claim_C1_severity_filter_count sampleBase 1
  refine ⟨h.1, h.2.2 sampleNode ?_⟩
  rw [show (sampleBase.SetSeverities 1).m_tree = [sampleNode] from rfl]
  exact List.mem_cons_self _ _

/-- C5: after `DeleteAllItems` on the tree model, `GetDRCItemCount` returns
0 and the attached provider's `GetCount` returns 0 for every severity
argument. -/
theorem claim_C5_delete_all (m : RC_TREE_MODEL) :
    m.DeleteAllItems.GetDRCItemCount = 0 ∧
    ∀ s : Option Nat, m.DeleteAllItems.m_rcItemsProvider.GetCount s = 0 := by
  refine ⟨rfl, ?_⟩
  intro s
  cases s <;> rfl

/-- C7: in-place editing through the tree-view protocol is always rejected:
for every variant value, item handle and column index,
`RC_TREE_MODEL.SetValue` returns `false` and leaves the model state
unchanged. -/
theorem claim_C7_set_value_rejected (m : RC_TREE_MODEL) (aVariant : String)
    (aItem : wxDataViewItem) (aCol : Nat) :
    m.SetValue aVariant aItem aCol = (false, m) :=
  rfl

/-- C8: node-handle round-trip: `ToNode (ToItem n) = n` for every node
pointer `n`, and `ToItem (ToNode h) = h` for every handle `h` — the
opaque-handle conversion is a bijection on node addresses. -/
theorem claim_C8_handle_roundtrip :
    (∀ n : Nat, RC_TREE_MODEL.ToNode (RC_TREE_MODEL.ToItem n) = n) ∧
    (∀ h : wxDataViewItem, RC_TREE_MODEL.ToItem (RC_TREE_MODEL.ToNode h) = h) :=
  ⟨fun _ => rfl, fun _ => rfl⟩

/-- C9: after the display-mode part of `PCB_BASE_FRAME::LoadSettings`, the
fields `m_DisplayModEdge` and `m_DisplayModText` lie within `[LINE, SKETCH]`
whatever the configuration store supplied, and any out-of-range value is
replaced by `FILLED`. -/
theorem claim_C9_display_mode_clamped (e t : Int) :
    (LINE ≤ (LoadSettings_displayModes e t).m_DisplayModEdge ∧
      (LoadSettings_displayModes e t).m_DisplayModEdge ≤ SKETCH) ∧
    (LINE ≤ (LoadSettings_displayModes e t).m_DisplayModText ∧
      (LoadSettings_displayModes e t).m_DisplayModText ≤ SKETCH) ∧
    ((e < LINE ∨ e > SKETCH) →
      (LoadSettings_displayModes e t).m_DisplayModEdge = FILLED) ∧
    ((t < LINE ∨ t > SKETCH) →
      (LoadSettings_displayModes e t).m_DisplayModText = FILLED) := by
  simp only [LoadSettings_displayModes, LINE, FILLED, SKETCH]
  refine ⟨⟨?_, ?_⟩, ⟨?_, ?_⟩, ?_, ?_⟩ <;> (split <;> omega)

/-- Witness for C9 at concrete out-of-range inputs 5 and -3. -/
theorem claim_C9_witness :
    (((5 : Int) < LINE ∨ (5 : Int) > SKETCH) ∧
      (LoadSettings_displayModes 5 (-3)).m_DisplayModEdge = FILLED) ∧
    (((-3 : Int) < LINE ∨ (-3 : Int) > SKETCH) ∧
      (LoadSettings_displayModes 5 (-3)).m_DisplayModText = FILLED) :=
  ⟨⟨by decide, (claim_C9_display_mode_clamped 5 (-3)).2.2.1 (by decide)⟩,
   ⟨by decide, (claim_C9_display_mode_clamped 5 (-3)).2.2.2 (by decide)⟩⟩

/-- C10: the base-class default implementations of `ReportTail` and
`ReportHead` forward their arguments unchanged to `Report` and return its
result, so any subclass that does not override them gets exactly `Report`. -/
theorem claim_C10_report_forwarding (ρ : Type) (r : REPORTER ρ)
    (aText : String) (aSeverity : SEVERITY) :
    r.ReportTail aText aSeverity = r.Report aText aSeverity ∧
    r.ReportHead aText aSeverity = r.Report aText aSeverity :=
  ⟨rfl, rfl⟩

/-- C2: the tree-shape invariant — `MAIN_ITEM`/`AUX_ITEM` nodes childless,
every `MARKER` group with 0–2 children ordered main-entity leaf first (the
aux leaf present only when the item's aux uuid is non-nil), depth never
beyond two levels — holds after every rebuild, is preserved by delete and by
change notification, and holds after delete-all. -/
theorem claim_C2_tree_shape_invariant :
    (∀ (m : RC_TREE_MODEL) (p : RC_ITEMS_PROVIDER) (s : Nat),
        treeWF (m.rebuildModel p s).m_tree = true) ∧
    (∀ (m : RC_TREE_MODEL) (sel : Option RC_TREE_NODE) (deep : Bool),
        treeWF m.m_tree = true →
        treeWF (m.DeleteCurrentItem sel deep).m_tree = true) ∧
    (∀ (m : RC_TREE_MODEL) (n : RC_TREE_NODE),
        treeWF m.m_tree = true → treeWF (m.ValueChanged n).m_tree = true) ∧
    (∀ m : RC_TREE_MODEL, treeWF m.DeleteAllItems.m_tree = true) := by
  refine ⟨?_, ?_, ?_, ?_⟩
  · intro m p s
    simp only [RC_TREE_MODEL.rebuildModel, treeWF]
    rw [List.all_eq_true]
    intro g hg
    obtain ⟨item, -, rfl⟩ := List.mem_map.mp hg
    exact nodeInv_groupNodeFor item
  · intro m sel deep h
    cases sel with
    | none => exact h
    | some node =>
      cases hfind : findItemIndex node.m_RcItem m.m_rcItemsProvider.filteredItems with
      | none => simpa [RC_TREE_MODEL.DeleteCurrentItem, hfind] using h
      | some i =>
        have htree : (m.DeleteCurrentItem (some node) deep).m_tree
            = m.m_tree.eraseIdx i := by
          simp [RC_TREE_MODEL.DeleteCurrentItem, hfind]
        rw [htree]
        unfold treeWF at h ⊢
        exact all_eraseIdx nodeInv m.m_tree i h
  · intro m n h
    exact h
  · intro m
    rfl

/-- Witness for C2: the delete-preservation clause applied to the concrete
sample model and its selected group node. -/
theorem claim_C2_witness :
    treeWF sampleModel.m_tree = true ∧
    treeWF (sampleModel.DeleteCurrentItem (some sampleNode) false).m_tree = true :=
  ⟨by decide,
   claim_C2_tree_shape_invariant.2.1 sampleModel (some sampleNode) false (by decide)⟩

/-- C3: after a rebuild, `GetChildren` on the sentinel root yields the group
nodes in the provider's filtered index order (an order-preserving sublist of
the provider's item list, never re-sorted); on a group node it yields the
leaf children main-entity first; on a leaf it yields nothing. -/
theorem claim_C3_get_children_order (m : RC_TREE_MODEL)
    (p : RC_ITEMS_PROVIDER) (s : Nat) :
    ((m.rebuildModel p s).GetChildren none).map RC_TREE_NODE.m_RcItem
        = (m.rebuildModel p s).m_rcItemsProvider.filteredItems ∧
    List.Sublist
        (((m.rebuildModel p s).GetChildren none).map RC_TREE_NODE.m_RcItem)
        p.m_items ∧
    (∀ g ∈ (m.rebuildModel p s).GetChildren none,
        ((m.rebuildModel p s).GetChildren (some g)).map RC_TREE_NODE.m_Type
          = mainAuxTypes g.m_RcItem) ∧
    (∀ g ∈ (m.rebuildModel p s).GetChildren none,
        ∀ c ∈ (m.rebuildModel p s).GetChildren (some g),
          (m.rebuildModel p s).GetChildren (some c) = []) := by
  have hmap : ((m.rebuildModel p s).GetChildren none).map RC_TREE_NODE.m_RcItem
      = (m.rebuildModel p s).m_rcItemsProvider.filteredItems := by
    simp only [RC_TREE_MODEL.rebuildModel, RC_TREE_MODEL.GetChildren,
      List.map_map]
    have hcomp : RC_TREE_NODE.m_RcItem ∘ groupNodeFor = id :=
      funext groupNodeFor_rcItem
    rw [hcomp, List.map_id]
  refine ⟨hmap, ?_, ?_, ?_⟩
  · rw [hmap]
    exact List.filter_sublist _
  · intro g hg
    simp only [RC_TREE_MODEL.rebuildModel, RC_TREE_MODEL.GetChildren,
      List.mem_map] at hg
    obtain ⟨item, -, rfl⟩ := hg
    rw [groupNodeFor_rcItem]
    exact groupNodeFor_children_types item
  · intro g hg c hc
    simp only [RC_TREE_MODEL.rebuildModel, RC_TREE_MODEL.GetChildren,
      List.mem_map] at hg
    obtain ⟨item, -, rfl⟩ := hg
    exact groupNodeFor_children_childless item c hc

/-- Witness for C3: the spec's stability scenario — provider items at
indices [0, 1, 2] with severities [error, warning, error] and an error-only
filter yield the groups of item 0 and item 2 in that order — and the
main-first child listing of the selected group node. -/
theorem claim_C3_witness :
    ((sampleBase.rebuildModel sampleProvider3 1).GetChildren none).map
        RC_TREE_NODE.m_RcItem = [sampleItem0, sampleItem2] ∧
    ((sampleBase.rebuildModel sampleProvider3 1).GetChildren
        (some sampleNode)).map RC_TREE_NODE.m_Type
      = [NODE_TYPE.MAIN_ITEM, NODE_TYPE.AUX_ITEM] ∧
    (sampleBase.rebuildModel sampleProvider3 1).GetChildren
        (some sampleAuxLeaf) = [] := by
  have h := claim_C3_get_children_order sampleBase sampleProvider3 1
  have hmem : sampleNode ∈ (sampleBase.rebuildModel sampleProvider3 1).GetChildren none := by
    rw [show (sampleBase.rebuildModel sampleProvider3 1).GetChildren none
        = [sampleNode, groupNodeFor sampleItem2] from rfl]
    exact List.mem_cons_self _ _
  refine ⟨h.1, ?_, ?_⟩
  · have h3 := h.2.2.1 sampleNode hmem
    exact h3.trans (by rfl)
  · have h4 := h.2.2.2 sampleNode hmem sampleAuxLeaf
        (by rw [show (sampleBase.rebuildModel sampleProvider3 1).GetChildren
              (some sampleNode) = [RC_TREE_NODE.mk NODE_TYPE.MAIN_ITEM sampleItem0 [],
              sampleAuxLeaf] from rfl]
            exact List.mem_cons_of_mem _ (List.mem_cons_self _ _))
    exact h4

/-- C4: `DeleteCurrentItem` with `deep = false` on a selected node whose item
maps to live provider index `i` calls the provider's `DeleteItem i false`
exactly once (one new log entry), removes the group node at position `i`
from the tree (with its children), and leaves every other provider item
unchanged (the underlying list loses exactly that one element and the
filtered view loses exactly index `i`); when the selected node cannot be
mapped to a provider index — or there is no selection — the operation is a
no-op. -/
theorem claim_C4_delete_current (m : RC_TREE_MODEL) (node : RC_TREE_NODE) :
    (∀ i : Nat,
      findItemIndex node.m_RcItem m.m_rcItemsProvider.filteredItems = some i →
      (m.DeleteCurrentItem (some node) false).m_rcItemsProvider.m_deleteLog
          = (i, false) :: m.m_rcItemsProvider.m_deleteLog ∧
      (m.DeleteCurrentItem (some node) false).m_tree = m.m_tree.eraseIdx i ∧
      (m.DeleteCurrentItem (some node) false).m_rcItemsProvider.filteredItems
          = m.m_rcItemsProvider.filteredItems.eraseIdx i ∧
      ∃ pre post,
        m.m_rcItemsProvider.m_items = pre ++ node.m_RcItem :: post ∧
        (m.DeleteCurrentItem (some node) false).m_rcItemsProvider.m_items
          = pre ++ post) ∧
    (findItemIndex node.m_RcItem m.m_rcItemsProvider.filteredItems = none →
      m.DeleteCurrentItem (some node) false = m) ∧
    m.DeleteCurrentItem none false = m := by
  refine ⟨?_, ?_, rfl⟩
  · intro i hi
    have hresult : m.DeleteCurrentItem (some node) false =
        { m with
          m_rcItemsProvider := m.m_rcItemsProvider.DeleteItem i false
          m_tree := m.m_tree.eraseIdx i } := by
      simp [RC_TREE_MODEL.DeleteCurrentItem, hi]
    refine ⟨by rw [hresult]; rfl, by rw [hresult], ?_, ?_⟩
    · rw [hresult]
      simp only [RC_ITEMS_PROVIDER.DeleteItem, RC_ITEMS_PROVIDER.filteredItems]
      exact filter_removeNthMatching _ m.m_rcItemsProvider.m_items i
    · have hget := findItemIndex_getElem node.m_RcItem
        m.m_rcItemsProvider.filteredItems i hi
      obtain ⟨pre, post, hl, hr⟩ :=
        filter_decomp_removeNth
          (m.m_rcItemsProvider.matchesMask m.m_rcItemsProvider.m_severities)
          m.m_rcItemsProvider.m_items i node.m_RcItem hget
      refine ⟨pre, post, hl, ?_⟩
      rw [hresult]
      exact hr
  · intro hn
    simp [RC_TREE_MODEL.DeleteCurrentItem, hn]

/-- Witness for C4: deleting the selected sample group node logs exactly one
`DeleteItem 0 false` call, erases the group from the tree, and leaves the
other provider item in place; deleting a stale node is a no-op. -/
theorem claim_C4_witness :
    (sampleModel.DeleteCurrentItem (some sampleNode) false).m_rcItemsProvider.m_deleteLog
        = [(0, false)] ∧
    (sampleModel.DeleteCurrentItem (some sampleNode) false).m_tree
        = sampleModel.m_tree.eraseIdx 0 ∧
    (sampleModel.DeleteCurrentItem (some sampleNode) false).m_rcItemsProvider.m_items
        = [sampleItem1] ∧
    sampleModel.DeleteCurrentItem (some staleNode) false = sampleModel := by
  have h := (claim_C4_delete_current sampleModel sampleNode).1 0 (by decide)
  exact ⟨h.1, h.2.1, by rfl,
    (claim_C4_delete_current sampleModel staleNode).2.1 (by decide)⟩

/-- C6, as stated, is false: a default-constructed `RC_ITEM` is reachable
and its main-entity uuid is the nil sentinel; moreover `SetItems 7 7`
reaches a state whose aux uuid is non-nil yet equal to the main uuid, so
distinctness is not maintained either. -/
theorem claim_C6_counterexample :
    ¬ (∀ r : RC_ITEM, RC_ITEM.Reachable r →
        r.GetMainItemID ≠ niluuid ∧
        (r.GetAuxItemID = niluuid ∨ r.GetAuxItemID ≠ r.GetMainItemID)) ∧
    (RC_ITEM.Reachable (RC_ITEM.ctor.SetItems 7 7) ∧
      (RC_ITEM.ctor.SetItems 7 7).GetAuxItemID
          = (RC_ITEM.ctor.SetItems 7 7).GetMainItemID ∧
      (RC_ITEM.ctor.SetItems 7 7).GetAuxItemID ≠ niluuid) := by
  refine ⟨?_, ?_, rfl, by decide⟩
  · intro hclaim
    exact (hclaim RC_ITEM.ctor RC_ITEM.Reachable.ctor).1 rfl
  · exact RC_ITEM.Reachable.setItems RC_ITEM.ctor 7 7 RC_ITEM.Reachable.ctor

/-- C6 (amended): the constructor initializes both identifiers to the nil
sentinel; `SetItems` stores the supplied identifiers verbatim — so the main
identifier is present exactly when a non-nil main argument was supplied, and
the auxiliary identifier may be nil or may even coincide with the main one
(no distinctness is enforced); copying preserves all fields. -/
theorem claim_C6_amended (r : RC_ITEM) (a b : KIID) (h : a ≠ niluuid) :
    RC_ITEM.ctor.GetMainItemID = niluuid ∧
    RC_ITEM.ctor.GetAuxItemID = niluuid ∧
    (r.SetItems a b).GetMainItemID = a ∧
    (r.SetItems a b).GetAuxItemID = b ∧
    (r.SetItems a b).GetMainItemID ≠ niluuid ∧
    RC_ITEM.copy r = r :=
  ⟨rfl, rfl, rfl, rfl, h, rfl⟩

/-- Witness for C6 (amended) at the concrete non-nil main uuid 7. -/
theorem claim_C6_amended_witness :
    (7 : KIID) ≠ niluuid ∧
    (RC_ITEM.ctor.SetItems 7 3).GetMainItemID ≠ niluuid :=
  ⟨by decide, (claim_C6_amended RC_ITEM.ctor 7 3 (by decide)).2.2.2.2.1⟩

end KicadRC
